import Mathlib

/-!
Shallow embedding of the two RAG demonstration scripts of this repository,
`src/pgvector.ts` (variant A: Postgres with the pgvector extension) and
`src/chromadb.ts` (variant B: a Chroma collection service).

Each script is a straight-line chain of awaited external calls.  A run is
modelled as a value of `RunM`: the result of the promise chain (`Except Err`)
together with the ordered trace of external calls it issued.  The answers of
the external services (database, embedding endpoint, chat endpoint, standard
input) are supplied by an oracle environment, one field per kind of call.
Awaiting a rejected promise with no surrounding try/catch is `Except`
short-circuiting; a JavaScript property access on `undefined` (reading index 0
of an empty response array) is the error `Err.undefinedAccess`.
-/

/-- Embedding vectors (`number[]` in the scripts).  The scripts never inspect
the entries; they only hand them from the embedding endpoint to the storage
backend, so the numeric carrier is irrelevant. -/
abbrev Emb := List Rat

/-- Reasons a run aborts: an external call rejected, or a JavaScript
`TypeError` from reading a property of `undefined` (index 0 of an empty
response array). -/
inductive Err where
  | external (callName : String) (msg : String)
  | undefinedAccess (site : String)
deriving DecidableEq, Repr

/-- One message of a chat-completion request. -/
structure ChatMessage where
  role : String
  content : String
deriving DecidableEq, Repr

/-- One choice of a chat-completion response; `content` is
`choices[i].message.content`, which the API may return as `null`. -/
structure ChatChoice where
  content : Option String
deriving DecidableEq, Repr

deriving instance DecidableEq for Except

/-- A run of an async script: the result of the promise chain together with
the trace of external calls issued, in order.  `ε` is the per-variant event
type. -/
structure RunM (ε : Type) (α : Type) where
  res : Except Err α
  trace : List ε
deriving DecidableEq, Repr

/-- Sequential composition (`await` then continue); a rejection
short-circuits the rest of the chain. -/
def RunM.bind (x : RunM ε α) (f : α → RunM ε β) : RunM ε β :=
  match x.res with
  | .ok a => ⟨(f a).res, x.trace ++ (f a).trace⟩
  | .error e => ⟨.error e, x.trace⟩

instance : Monad (RunM ε) where
  pure a := ⟨.ok a, []⟩
  bind := RunM.bind

/-- An awaited external call: the event is recorded and the environment's
answer becomes the result. -/
def extCall (e : ε) (r : Except Err α) : RunM ε α := ⟨r, [e]⟩

/-- A console-only effect. -/
def emit (e : ε) : RunM ε Unit := ⟨.ok (), [e]⟩

/-- A thrown `TypeError` (property access on `undefined`). -/
def throwUndefined (site : String) : RunM ε α := ⟨.error (.undefinedAccess site), []⟩

@[simp] theorem runm_mk_ok_bind (a : α) (t : List ε) (f : α → RunM ε β) :
    (RunM.mk (.ok a) t >>= f) = ⟨(f a).res, t ++ (f a).trace⟩ := rfl

@[simp] theorem runm_mk_error_bind (e : Err) (t : List ε) (f : α → RunM ε β) :
    (RunM.mk (.error e) t >>= f) = ⟨.error e, t⟩ := rfl

@[simp] theorem extCall_def (e : ε) (r : Except Err α) : extCall e r = RunM.mk r [e] := rfl

@[simp] theorem emit_def (e : ε) : emit e = RunM.mk (.ok ()) [e] := rfl

@[simp] theorem runm_pure_def (a : α) : (pure a : RunM ε α) = RunM.mk (.ok a) [] := rfl

@[simp] theorem throwUndefined_def (s : String) :
    (throwUndefined s : RunM ε α) = RunM.mk (.error (.undefinedAccess s)) [] := rfl

/-- An event of `x >>= f`'s trace comes from `x`, or from `f a` after `x`
succeeded with `a`. -/
theorem mem_bind_trace {x : RunM ε α} {f : α → RunM ε β} {e : ε}
    (h : e ∈ (x >>= f).trace) :
    e ∈ x.trace ∨ ∃ a, x.res = .ok a ∧ e ∈ (f a).trace := by
  rcases x with ⟨r, t⟩
  cases r with
  | ok a =>
    have h' : e ∈ t ++ (f a).trace := h
    rcases List.mem_append.mp h' with h'' | h''
    · exact Or.inl h''
    · exact Or.inr ⟨a, rfl, h''⟩
  | error err => exact Or.inl (by simpa using h)

/-- console.log prints the string `null` for a null message content. -/
def printedContent : Option String → String
  | none => "null"
  | some s => s

namespace Pgvector

/-- Example data to be embedded and stored, verbatim from `src/pgvector.ts`. -/
def studentInfo : String :=
  "Alexandra Thompson, a 19-year-old computer science sophomore with a 3.7 GPA..."

/-- Second example document of `src/pgvector.ts`. -/
def clubInfo : String :=
  "The university chess club provides an outlet for students to come together..."

/-- Third example document of `src/pgvector.ts`. -/
def universityInfo : String :=
  "The University of Washington, founded in 1861 in Seattle, is a public research university..."

/-- SQL text of the CREATE EXTENSION statement, verbatim. -/
def createExtensionSql : String := "CREATE EXTENSION IF NOT EXISTS vector;"

/-- SQL text of the DROP TABLE statement, verbatim. -/
def dropTableSql : String := "DROP TABLE IF EXISTS documents"

/-- SQL text of the CREATE TABLE statement, verbatim from the template
literal (including its whitespace). -/
def createTableSql : String :=
  "\n    CREATE TABLE IF NOT EXISTS documents (\n      id serial PRIMARY KEY,\n      content TEXT,\n      embedding vector(1536)\n    );\n  "

/-- SQL text of the INSERT statement, verbatim. -/
def insertSql : String := "INSERT INTO documents (content, embedding) VALUES ($1, $2);"

/-- SQL text of the nearest-neighbor SELECT, verbatim from the template
literal: ORDER BY the `<->` distance operator, LIMIT 1. -/
def selectSql : String :=
  "SELECT content FROM documents\n     ORDER BY embedding <-> $1\n     LIMIT 1;"

/-- A parameter of a parameterized `pg.query` call: `$1` text or a
`pgvector.toSql` serialized vector. -/
inductive SqlParam where
  | text (s : String)
  | vec (v : Emb)
deriving DecidableEq, Repr

/-- A row as the script sees it: only the selected `content` column is ever
read; SQL NULL is `none`. -/
structure PgRow where
  content : Option String
deriving DecidableEq, Repr

/-- External calls issued by `src/pgvector.ts`, in the order recorded. -/
inductive Event where
  | connect
  | registerTypes
  | pgQuery (sql : String) (params : List SqlParam)
  | embeddingsCreate (model : String) (input : String)
  | chatCreate (model : String) (temperature : Rat) (messages : List ChatMessage)
  | rlQuestion (prompt : String) (answer : String)
  | consoleLog (line : String)
  | pgEnd
deriving DecidableEq, Repr

/-- Oracle environment: the answers of the external services for variant A. -/
structure Env where
  connectR : Except Err Unit
  registerTypesR : Except Err Unit
  queryR : String → List SqlParam → Except Err (List PgRow)
  embeddingsR : String → String → Except Err (List Emb)
  chatR : String → Rat → List ChatMessage → Except Err (List ChatChoice)
  stdinAnswer : String
  endR : Except Err Unit

/-- `getEmbedding` of `src/pgvector.ts`: one embeddings call with the given
text, then `res.data[0].embedding` — which throws when `data` is empty. -/
def getEmbedding (env : Env) (text : String) : RunM Event Emb := do
  let data ← extCall (.embeddingsCreate "text-embedding-ada-002" text)
      (env.embeddingsR "text-embedding-ada-002" text)
  match data with
  | e :: _ => pure e
  | [] => throwUndefined "res.data[0].embedding"

/-- `embedAndInsert` of `src/pgvector.ts`. -/
def embedAndInsert (env : Env) (content : String) : RunM Event Unit := do
  let embedding ← getEmbedding env content
  let _ ← extCall (.pgQuery insertSql [.text content, .vec embedding])
      (env.queryR insertSql [.text content, .vec embedding])
  pure ()

/-- `setupTable` of `src/pgvector.ts`: extension, drop, create. -/
def setupTable (env : Env) : RunM Event Unit := do
  let _ ← extCall (.pgQuery createExtensionSql []) (env.queryR createExtensionSql [])
  let _ ← extCall (.pgQuery dropTableSql []) (env.queryR dropTableSql [])
  let _ ← extCall (.pgQuery createTableSql []) (env.queryR createTableSql [])
  pure ()

/-- JavaScript `rows[0]?.content || null`: an empty row set, a NULL content
and the empty string all collapse to `none`. -/
def rowsToContext (rows : List PgRow) : Option String :=
  match rows with
  | [] => none
  | r :: _ =>
    match r.content with
    | none => none
    | some s => if s = "" then none else some s

/-- `queryRelevantDocument` of `src/pgvector.ts`. -/
def queryRelevantDocument (env : Env) (question : String) : RunM Event (Option String) := do
  let embedding ← getEmbedding env question
  let rows ← extCall (.pgQuery selectSql [.vec embedding])
      (env.queryR selectSql [.vec embedding])
  pure (rowsToContext rows)

/-- Prompt shown by `rl.question`, verbatim. -/
def promptText : String := "What would you like to ask? "

/-- `askQuestion` of `src/pgvector.ts`. -/
def askQuestion (env : Env) : RunM Event Unit := do
  let question ← extCall (.rlQuestion promptText env.stdinAnswer) (.ok env.stdinAnswer)
  let context ← queryRelevantDocument env question
  match context with
  | none => emit (.consoleLog "No relevant document found.")
  | some ctx => do
    let msgs : List ChatMessage :=
      [⟨"assistant", "Use this information: " ++ ctx⟩, ⟨"user", question⟩]
    let choices ← extCall (.chatCreate "gpt-3.5-turbo" 0 msgs)
        (env.chatR "gpt-3.5-turbo" 0 msgs)
    match choices with
    | c :: _ => emit (.consoleLog (printedContent c.content))
    | [] => throwUndefined "res.choices[0].message"

/-- The module-level execution of `src/pgvector.ts`: connect and register
types at import, then the five awaited steps, then `pg.end()`.  Every step is
a top-level `await`, so this is plain sequential composition. -/
def runSteps (env : Env) : RunM Event Unit := do
  let _ ← extCall .connect env.connectR
  let _ ← extCall .registerTypes env.registerTypesR
  setupTable env
  embedAndInsert env studentInfo
  embedAndInsert env clubInfo
  embedAndInsert env universityInfo
  askQuestion env
  let _ ← extCall .pgEnd env.endR
  pure ()

/-- Modelled from the spec: the relational storage backend behind `pg.query`.
The spec's storage contract says reset "drops and recreates storage" and
insert "stores the pair"; accordingly the table state is `none` while the
documents table does not exist and otherwise the (content, embedding) rows in
insertion order.  Only the statements the script issues get a meaning: DROP
TABLE IF EXISTS removes the table, CREATE TABLE IF NOT EXISTS creates it
empty only when absent, INSERT appends its two parameters as a row; any other
statement (CREATE EXTENSION, SELECT) leaves the table unchanged. -/
def applyPgQuery (table : Option (List (String × Emb))) (sql : String)
    (params : List SqlParam) : Option (List (String × Emb)) :=
  if sql = dropTableSql then none
  else if sql = createTableSql then
    match table with
    | none => some []
    | some t => some t
  else if sql = insertSql then
    match table, params with
    | some t, [SqlParam.text c, SqlParam.vec v] => some (t ++ [(c, v)])
    | _, _ => table
  else table

/-- Effect of one traced event on the modelled table; only `pg.query` events
touch storage. -/
def applyEvent (table : Option (List (String × Emb))) :
    Event → Option (List (String × Emb))
  | .pgQuery sql params => applyPgQuery table sql params
  | _ => table

/-- Table state after replaying a trace from a given initial state. -/
def tableAfter (table : Option (List (String × Emb))) (tr : List Event) :
    Option (List (String × Emb)) :=
  tr.foldl applyEvent table

end Pgvector

namespace Chromadb

/-- First example document, verbatim from the template literal in
`src/chromadb.ts` (newlines included). -/
def studentInfo : String :=
  "Alexandra Thompson, a 19-year-old computer science sophomore with a 3.7 GPA,\nis a member of the programming and chess clubs who enjoys pizza, swimming, and hiking\nin her free time in hopes of working at a tech company after graduating from the University of Washington."

/-- Second example document, verbatim. -/
def clubInfo : String :=
  "The university chess club provides an outlet for students to come together and enjoy playing\nthe classic strategy game of chess. Members of all skill levels are welcome, from beginners learning\nthe rules to experienced tournament players. The club typically meets a few times per week to play casual games,\nparticipate in tournaments, analyze famous chess matches, and improve members' skills."

/-- Third example document, verbatim. -/
def universityInfo : String :=
  "The University of Washington, founded in 1861 in Seattle, is a public research university\nwith over 45,000 students across three campuses in Seattle, Tacoma, and Bothell.\nAs the flagship institution of the six public universities in Washington state,\nUW encompasses over 500 buildings and 20 million square feet of space,\nincluding one of the largest library systems in the world."

/-- Name of the one Chroma collection. -/
def collectionName : String := "personal-infos"

/-- External calls issued by `src/chromadb.ts`. -/
inductive Event where
  | createCollection (name : String)
  | getCollection (name : String)
  | collectionAdd (documents : List String) (ids : List String)
  | collectionQuery (queryTexts : String) (nResults : Nat)
  | chatCreate (model : String) (temperature : Rat) (messages : List ChatMessage)
  | rlQuestion (prompt : String) (answer : String)
  | consoleLog (line : String)
deriving DecidableEq, Repr

/-- Oracle environment: the answers of the external services for variant B.
`queryR` answers a `collection.query` call with `result.documents`, an array
(one entry per query text) of arrays of documents, each possibly `null`. -/
structure Env where
  createCollectionR : String → Except Err Unit
  getCollectionR : String → Except Err Unit
  addR : List String → List String → Except Err Unit
  queryR : String → Nat → Except Err (List (List (Option String)))
  chatR : String → Rat → List ChatMessage → Except Err (List ChatChoice)
  stdinAnswer : String

/-- `createCollection` of `src/chromadb.ts`. -/
def createCollection (env : Env) : RunM Event Unit :=
  extCall (.createCollection collectionName) (env.createCollectionR collectionName)

/-- `getCollection` of `src/chromadb.ts`. -/
def getCollection (env : Env) : RunM Event Unit :=
  extCall (.getCollection collectionName) (env.getCollectionR collectionName)

/-- `populateCollection` of `src/chromadb.ts`: get the collection, then one
`add` call with the three documents and the fixed ids. -/
def populateCollection (env : Env) : RunM Event Unit := do
  getCollection env
  let _ ← extCall (.collectionAdd [studentInfo, clubInfo, universityInfo] ["id1", "id2", "id3"])
      (env.addR [studentInfo, clubInfo, universityInfo] ["id1", "id2", "id3"])
  pure ()

/-- `prepareDataSet` of `src/chromadb.ts`. -/
def prepareDataSet (env : Env) : RunM Event Unit := do
  createCollection env
  populateCollection env

/-- JavaScript truthiness of `relevantInfo`: `undefined`, `null` and the
empty string are falsy. -/
def jsTruthy : Option String → Option String
  | none => none
  | some s => if s = "" then none else some s

/-- Prompt shown by `rl.question`, verbatim. -/
def promptText : String := "What would you like to ask? "

/-- `askQuestion` of `src/chromadb.ts`: read the question, get the
collection, query with `nResults: 1`, then read `result.documents[0][0]` —
index 0 of an empty outer array throws, an empty inner array yields
`undefined` which is merely falsy. -/
def askQuestion (env : Env) : RunM Event Unit := do
  let question ← extCall (.rlQuestion promptText env.stdinAnswer) (.ok env.stdinAnswer)
  getCollection env
  let documents ← extCall (.collectionQuery question 1) (env.queryR question 1)
  match documents with
  | [] => throwUndefined "result.documents[0][0]"
  | inner :: _ =>
    match jsTruthy inner.headI with
    | some info => do
      let msgs : List ChatMessage :=
        [⟨"assistant", "Answer the next question using this information: " ++ info⟩,
         ⟨"user", question⟩]
      let choices ← extCall (.chatCreate "gpt-3.5-turbo" 0 msgs)
          (env.chatR "gpt-3.5-turbo" 0 msgs)
      match choices with
      | c :: _ => emit (.consoleLog (printedContent c.content))
      | [] => throwUndefined "response.choices[0].message"
    | none => emit (.consoleLog "No relevant information found.")

/-- `ask` of `src/chromadb.ts`. -/
def ask (env : Env) : RunM Event Unit := askQuestion env

end Chromadb

/-- All interleavings of two lists that keep the relative order of each;
structural recursion on a fuel bound so that the kernel evaluates it. -/
def interleavingsAux : Nat → List α → List α → List (List α)
  | 0, xs, ys => [xs ++ ys]
  | _ + 1, [], ys => [ys]
  | _ + 1, x :: xs, [] => [x :: xs]
  | n + 1, x :: xs, y :: ys =>
      ((interleavingsAux n xs (y :: ys)).map fun t => x :: t) ++
      ((interleavingsAux n (x :: xs) ys).map fun t => y :: t)

/-- All interleavings of two lists that keep the relative order of each. -/
def interleavings (xs ys : List α) : List (List α) :=
  interleavingsAux (xs.length + ys.length) xs ys

namespace Chromadb

/-- The top level of `src/chromadb.ts` is `prepareDataSet(); ask();` —
neither call is awaited, so the two promise chains run concurrently and the
external calls of one may resolve between those of the other.  The possible
orders of external events are the interleavings of the two traces. -/
def mainTraces (env : Env) : List (List Event) :=
  interleavings (prepareDataSet env).trace (ask env).trace

/-- Modelled from the spec: the Chroma collection store behind the client
calls.  The spec's storage contract says reset "drops and recreates storage"
and insert "stores the pair"; the state is `none` while the collection has
not been created, otherwise the stored (id, document) pairs.
`createCollection` creates an empty collection only when the name is absent
(the real service rejects the call when the collection exists; either way an
existing collection and its documents survive, nothing is dropped), `add`
appends its documents under their ids, and no event of the script deletes
anything. -/
def storeAfterEvent (store : Option (List (String × String))) :
    Event → Option (List (String × String))
  | .createCollection _ =>
    match store with
    | none => some []
    | some t => some t
  | .collectionAdd docs ids =>
    match store with
    | none => none
    | some t => some (t ++ ids.zip docs)
  | _ => store

/-- Collection state after replaying a trace from a given initial state. -/
def storeAfter (store : Option (List (String × String))) (tr : List Event) :
    Option (List (String × String)) :=
  tr.foldl storeAfterEvent store

end Chromadb

/-- Index of the first element satisfying a predicate. -/
def firstIdx (p : α → Bool) : List α → Option Nat
  | [] => none
  | x :: xs => if p x then some 0 else (firstIdx p xs).map (· + 1)

/-- Recognizer for the question-read event of variant B. -/
def Chromadb.Event.isRlQuestion : Chromadb.Event → Bool
  | .rlQuestion _ _ => true
  | _ => false

/-- Recognizer for the document-insertion event of variant B. -/
def Chromadb.Event.isAdd : Chromadb.Event → Bool
  | .collectionAdd _ _ => true
  | _ => false

/-- In the trace, the first question read happens before the first document
insertion. -/
def questionBeforeInsert (t : List Chromadb.Event) : Bool :=
  match firstIdx Chromadb.Event.isRlQuestion t, firstIdx Chromadb.Event.isAdd t with
  | some i, some j => decide (i < j)
  | _, _ => false

/-- A sample embedding vector for concrete environments. -/
def sampleEmb : Emb := [1]

/-- Variant A environment in which every external call succeeds and the
nearest-neighbor SELECT returns the club passage. -/
def envFoundA : Pgvector.Env :=
  ⟨.ok (), .ok (),
   fun _ _ => .ok [⟨some Pgvector.clubInfo⟩],
   fun _ _ => .ok [sampleEmb],
   fun _ _ _ => .ok [⟨some "The chess club meets a few times per week."⟩],
   "What does the chess club do?",
   .ok ()⟩

/-- Variant A environment in which every external call succeeds but the
nearest-neighbor SELECT returns zero rows. -/
def envEmptyA : Pgvector.Env :=
  ⟨.ok (), .ok (),
   fun _ _ => .ok [],
   fun _ _ => .ok [sampleEmb],
   fun _ _ _ => .ok [⟨some "unused"⟩],
   "What does the chess club do?",
   .ok ()⟩

/-- Variant B environment in which every external call succeeds and the query
finds the club passage. -/
def envFoundB : Chromadb.Env :=
  ⟨fun _ => .ok (), fun _ => .ok (), fun _ _ => .ok (),
   fun _ _ => .ok [[some Chromadb.clubInfo]],
   fun _ _ _ => .ok [⟨some "It meets a few times per week."⟩],
   "What does the chess club do?"⟩

/-- Variant B environment in which every external call succeeds but the
query's inner document list is empty (empty collection). -/
def envEmptyB : Chromadb.Env :=
  ⟨fun _ => .ok (), fun _ => .ok (), fun _ _ => .ok (),
   fun _ _ => .ok [[]],
   fun _ _ _ => .ok [⟨some "unused"⟩],
   "Anything?"⟩

example : (Pgvector.runSteps envFoundA).res = .ok () := by rfl

example : (Pgvector.runSteps envEmptyA).trace =
    [.connect, .registerTypes,
     .pgQuery Pgvector.createExtensionSql [], .pgQuery Pgvector.dropTableSql [],
     .pgQuery Pgvector.createTableSql [],
     .embeddingsCreate "text-embedding-ada-002" Pgvector.studentInfo,
     .pgQuery Pgvector.insertSql [.text Pgvector.studentInfo, .vec sampleEmb],
     .embeddingsCreate "text-embedding-ada-002" Pgvector.clubInfo,
     .pgQuery Pgvector.insertSql [.text Pgvector.clubInfo, .vec sampleEmb],
     .embeddingsCreate "text-embedding-ada-002" Pgvector.universityInfo,
     .pgQuery Pgvector.insertSql [.text Pgvector.universityInfo, .vec sampleEmb],
     .rlQuestion Pgvector.promptText "What does the chess club do?",
     .embeddingsCreate "text-embedding-ada-002" "What does the chess club do?",
     .pgQuery Pgvector.selectSql [.vec sampleEmb],
     .consoleLog "No relevant document found.",
     .pgEnd] := by rfl

example : (Chromadb.askQuestion envEmptyB).trace =
    [.rlQuestion Chromadb.promptText "Anything?",
     .getCollection Chromadb.collectionName,
     .collectionQuery "Anything?" 1,
     .consoleLog "No relevant information found."] := by rfl

example : (Chromadb.mainTraces envFoundB).length = 56 := by rfl

example : (Chromadb.mainTraces envFoundB).any questionBeforeInsert = true := by decide

/-- Decomposition of a successful bind: the first component succeeded, the
continuation succeeded, and the traces concatenate. -/
theorem runm_bind_ok {x : RunM ε α} {f : α → RunM ε β} {b : β}
    (h : (x >>= f).res = .ok b) :
    ∃ a, x.res = .ok a ∧ (f a).res = .ok b ∧
      (x >>= f).trace = x.trace ++ (f a).trace := by
  rcases x with ⟨r, t⟩
  cases r with
  | ok a => exact ⟨a, rfl, by simpa using h, by simp⟩
  | error e => simp at h

/-- Trace of `getEmbedding`: always exactly one embeddings call, carrying the
literal input text. -/
theorem pg_getEmbedding_trace (env : Pgvector.Env) (text : String) :
    (Pgvector.getEmbedding env text).trace =
      [.embeddingsCreate "text-embedding-ada-002" text] := by
  cases h : env.embeddingsR "text-embedding-ada-002" text with
  | ok l => cases l <;> simp [Pgvector.getEmbedding, h]
  | error e => simp [Pgvector.getEmbedding, h]

/-- Result of `getEmbedding`: the head of the response's data array. -/
theorem pg_getEmbedding_res_ok {env : Pgvector.Env} {text : String} {e : Emb} :
    (Pgvector.getEmbedding env text).res = .ok e ↔
      ∃ tl, env.embeddingsR "text-embedding-ada-002" text = .ok (e :: tl) := by
  cases h : env.embeddingsR "text-embedding-ada-002" text with
  | ok l => cases l <;> simp [Pgvector.getEmbedding, h]
  | error er => simp [Pgvector.getEmbedding, h]

/-- A successful `setupTable` issued exactly the three schema statements, in
order: extension, drop, create. -/
theorem pg_setupTable_ok {env : Pgvector.Env}
    (h : (Pgvector.setupTable env).res = .ok ()) :
    (Pgvector.setupTable env).trace =
      [.pgQuery Pgvector.createExtensionSql [], .pgQuery Pgvector.dropTableSql [],
       .pgQuery Pgvector.createTableSql []] := by
  cases h1 : env.queryR Pgvector.createExtensionSql [] with
  | error e => simp [Pgvector.setupTable, h1] at h
  | ok r1 =>
    cases h2 : env.queryR Pgvector.dropTableSql [] with
    | error e => simp [Pgvector.setupTable, h1, h2] at h
    | ok r2 =>
      cases h3 : env.queryR Pgvector.createTableSql [] with
      | error e => simp [Pgvector.setupTable, h1, h2, h3] at h
      | ok r3 => simp [Pgvector.setupTable, h1, h2, h3]

/-- Every event of `setupTable`'s trace is a pg.query. -/
theorem pg_setupTable_events {env : Pgvector.Env} {e : Pgvector.Event}
    (he : e ∈ (Pgvector.setupTable env).trace) : ∃ sql ps, e = .pgQuery sql ps := by
  unfold Pgvector.setupTable at he
  rcases mem_bind_trace he with h | ⟨a, _, h⟩
  · exact ⟨_, _, by simpa using h⟩
  · rcases mem_bind_trace h with h' | ⟨a', _, h'⟩
    · exact ⟨_, _, by simpa using h'⟩
    · rcases mem_bind_trace h' with h'' | ⟨a'', _, h''⟩
      · exact ⟨_, _, by simpa using h''⟩
      · simp at h''

/-- A successful `embedAndInsert` embedded the literal content and inserted
that (content, embedding) pair, in that order. -/
theorem pg_embedAndInsert_ok {env : Pgvector.Env} {c : String}
    (h : (Pgvector.embedAndInsert env c).res = .ok ()) :
    ∃ e, (Pgvector.getEmbedding env c).res = .ok e ∧
      (Pgvector.embedAndInsert env c).trace =
        [.embeddingsCreate "text-embedding-ada-002" c,
         .pgQuery Pgvector.insertSql [.text c, .vec e]] := by
  cases h1 : env.embeddingsR "text-embedding-ada-002" c with
  | error e => simp [Pgvector.embedAndInsert, Pgvector.getEmbedding, h1] at h
  | ok l =>
    cases l with
    | nil => simp [Pgvector.embedAndInsert, Pgvector.getEmbedding, h1] at h
    | cons e0 tl =>
      cases h2 : env.queryR Pgvector.insertSql [.text c, .vec e0] with
      | error er => simp [Pgvector.embedAndInsert, Pgvector.getEmbedding, h1, h2] at h
      | ok rows =>
        exact ⟨e0, by simp [Pgvector.getEmbedding, h1],
          by simp [Pgvector.embedAndInsert, Pgvector.getEmbedding, h1, h2]⟩

/-- A successful `queryRelevantDocument` embedded the literal question, ran
the LIMIT 1 SELECT with that embedding, and returned the coerced head row. -/
theorem pg_queryRelevantDocument_ok {env : Pgvector.Env} {q : String} {ctx : Option String}
    (h : (Pgvector.queryRelevantDocument env q).res = .ok ctx) :
    ∃ e rows, (Pgvector.getEmbedding env q).res = .ok e ∧
      env.queryR Pgvector.selectSql [.vec e] = .ok rows ∧
      ctx = Pgvector.rowsToContext rows ∧
      (Pgvector.queryRelevantDocument env q).trace =
        [.embeddingsCreate "text-embedding-ada-002" q,
         .pgQuery Pgvector.selectSql [.vec e]] := by
  cases h1 : env.embeddingsR "text-embedding-ada-002" q with
  | error e => simp [Pgvector.queryRelevantDocument, Pgvector.getEmbedding, h1] at h
  | ok l =>
    cases l with
    | nil => simp [Pgvector.queryRelevantDocument, Pgvector.getEmbedding, h1] at h
    | cons e0 tl =>
      cases h2 : env.queryR Pgvector.selectSql [.vec e0] with
      | error er => simp [Pgvector.queryRelevantDocument, Pgvector.getEmbedding, h1, h2] at h
      | ok rows =>
        refine ⟨e0, rows, by simp [Pgvector.getEmbedding, h1], h2, ?_, ?_⟩
        · have := h
          simp [Pgvector.queryRelevantDocument, Pgvector.getEmbedding, h1, h2] at this
          exact this.symm
        · simp [Pgvector.queryRelevantDocument, Pgvector.getEmbedding, h1, h2]

/-- A successful `askQuestion` of variant A: the question was read, embedded
literally, the SELECT ran, and then either the coerced context was `none` and
only the not-found message was printed, or the chat call was made with the
context and the verbatim question and its first choice was printed. -/
theorem pg_askQuestion_ok {env : Pgvector.Env}
    (h : (Pgvector.askQuestion env).res = .ok ()) :
    ∃ e rows, (Pgvector.getEmbedding env env.stdinAnswer).res = .ok e ∧
      env.queryR Pgvector.selectSql [.vec e] = .ok rows ∧
      ((Pgvector.rowsToContext rows = none ∧
        (Pgvector.askQuestion env).trace =
          [.rlQuestion Pgvector.promptText env.stdinAnswer,
           .embeddingsCreate "text-embedding-ada-002" env.stdinAnswer,
           .pgQuery Pgvector.selectSql [.vec e],
           .consoleLog "No relevant document found."]) ∨
       (∃ ctx ch chl, Pgvector.rowsToContext rows = some ctx ∧
        env.chatR "gpt-3.5-turbo" 0
            [⟨"assistant", "Use this information: " ++ ctx⟩, ⟨"user", env.stdinAnswer⟩] =
          .ok (ch :: chl) ∧
        (Pgvector.askQuestion env).trace =
          [.rlQuestion Pgvector.promptText env.stdinAnswer,
           .embeddingsCreate "text-embedding-ada-002" env.stdinAnswer,
           .pgQuery Pgvector.selectSql [.vec e],
           .chatCreate "gpt-3.5-turbo" 0
             [⟨"assistant", "Use this information: " ++ ctx⟩, ⟨"user", env.stdinAnswer⟩],
           .consoleLog (printedContent ch.content)])) := by
  cases h1 : env.embeddingsR "text-embedding-ada-002" env.stdinAnswer with
  | error e =>
    simp [Pgvector.askQuestion, Pgvector.queryRelevantDocument, Pgvector.getEmbedding, h1] at h
  | ok l =>
    cases l with
    | nil =>
      simp [Pgvector.askQuestion, Pgvector.queryRelevantDocument, Pgvector.getEmbedding, h1] at h
    | cons e0 tl =>
      cases h2 : env.queryR Pgvector.selectSql [.vec e0] with
      | error er =>
        simp [Pgvector.askQuestion, Pgvector.queryRelevantDocument, Pgvector.getEmbedding,
          h1, h2] at h
      | ok rows =>
        refine ⟨e0, rows, by simp [Pgvector.getEmbedding, h1], h2, ?_⟩
        cases h3 : Pgvector.rowsToContext rows with
        | none =>
          exact Or.inl ⟨rfl, by
            simp [Pgvector.askQuestion, Pgvector.queryRelevantDocument, Pgvector.getEmbedding,
              h1, h2, h3]⟩
        | some ctx =>
          cases h4 : env.chatR "gpt-3.5-turbo" 0
              [⟨"assistant", "Use this information: " ++ ctx⟩, ⟨"user", env.stdinAnswer⟩] with
          | error er =>
            simp [Pgvector.askQuestion, Pgvector.queryRelevantDocument, Pgvector.getEmbedding,
              h1, h2, h3, h4] at h
          | ok choices =>
            cases choices with
            | nil =>
              simp [Pgvector.askQuestion, Pgvector.queryRelevantDocument,
                Pgvector.getEmbedding, h1, h2, h3, h4] at h
            | cons ch chl =>
              exact Or.inr ⟨ctx, ch, chl, rfl, h4, by
                simp [Pgvector.askQuestion, Pgvector.queryRelevantDocument,
                  Pgvector.getEmbedding, h1, h2, h3, h4]⟩

/-- Inversion for a chat event of variant A's `askQuestion`: any chat call in
its trace uses gpt-3.5-turbo at temperature 0 and carries exactly the fixed
instruction with the retrieved context plus the verbatim question. -/
theorem pg_chat_inv {env : Pgvector.Env} {m : String} {t : Rat} {msgs : List ChatMessage}
    (he : Pgvector.Event.chatCreate m t msgs ∈ (Pgvector.askQuestion env).trace) :
    m = "gpt-3.5-turbo" ∧ t = 0 ∧
      ∃ e rows ctx, (Pgvector.getEmbedding env env.stdinAnswer).res = .ok e ∧
        env.queryR Pgvector.selectSql [.vec e] = .ok rows ∧
        Pgvector.rowsToContext rows = some ctx ∧
        msgs = [⟨"assistant", "Use this information: " ++ ctx⟩,
                ⟨"user", env.stdinAnswer⟩] := by
  cases h1 : env.embeddingsR "text-embedding-ada-002" env.stdinAnswer with
  | error e =>
    simp [Pgvector.askQuestion, Pgvector.queryRelevantDocument, Pgvector.getEmbedding,
      h1] at he
  | ok l =>
    cases l with
    | nil =>
      simp [Pgvector.askQuestion, Pgvector.queryRelevantDocument, Pgvector.getEmbedding,
        h1] at he
    | cons e0 tl =>
      cases h2 : env.queryR Pgvector.selectSql [.vec e0] with
      | error er =>
        simp [Pgvector.askQuestion, Pgvector.queryRelevantDocument, Pgvector.getEmbedding,
          h1, h2] at he
      | ok rows =>
        cases h3 : Pgvector.rowsToContext rows with
        | none =>
          simp [Pgvector.askQuestion, Pgvector.queryRelevantDocument, Pgvector.getEmbedding,
            h1, h2, h3] at he
        | some ctx =>
          cases h4 : env.chatR "gpt-3.5-turbo" 0
              [⟨"assistant", "Use this information: " ++ ctx⟩, ⟨"user", env.stdinAnswer⟩] with
          | error er =>
            simp [Pgvector.askQuestion, Pgvector.queryRelevantDocument,
              Pgvector.getEmbedding, h1, h2, h3, h4] at he
            exact ⟨he.1, he.2.1, e0, rows, ctx,
              by simp [Pgvector.getEmbedding, h1], h2, h3, he.2.2⟩
          | ok choices =>
            cases choices with
            | nil =>
              simp [Pgvector.askQuestion, Pgvector.queryRelevantDocument,
                Pgvector.getEmbedding, h1, h2, h3, h4] at he
              exact ⟨he.1, he.2.1, e0, rows, ctx,
                by simp [Pgvector.getEmbedding, h1], h2, h3, he.2.2⟩
            | cons ch chl =>
              simp [Pgvector.askQuestion, Pgvector.queryRelevantDocument,
                Pgvector.getEmbedding, h1, h2, h3, h4] at he
              exact ⟨he.1, he.2.1, e0, rows, ctx,
                by simp [Pgvector.getEmbedding, h1], h2, h3, he.2.2⟩

/-- A successful run of variant A decomposes into the awaited steps in source
order, with every step succeeding. -/
theorem pg_runSteps_ok {env : Pgvector.Env}
    (h : (Pgvector.runSteps env).res = .ok ()) :
    env.connectR = .ok () ∧ env.registerTypesR = .ok () ∧
    (Pgvector.setupTable env).res = .ok () ∧
    (Pgvector.embedAndInsert env Pgvector.studentInfo).res = .ok () ∧
    (Pgvector.embedAndInsert env Pgvector.clubInfo).res = .ok () ∧
    (Pgvector.embedAndInsert env Pgvector.universityInfo).res = .ok () ∧
    (Pgvector.askQuestion env).res = .ok () ∧ env.endR = .ok () ∧
    (Pgvector.runSteps env).trace =
      .connect :: .registerTypes ::
        ((Pgvector.setupTable env).trace ++
          ((Pgvector.embedAndInsert env Pgvector.studentInfo).trace ++
            ((Pgvector.embedAndInsert env Pgvector.clubInfo).trace ++
              ((Pgvector.embedAndInsert env Pgvector.universityInfo).trace ++
                ((Pgvector.askQuestion env).trace ++ [.pgEnd]))))) := by
  unfold Pgvector.runSteps at h ⊢
  obtain ⟨u1, hc, h, htr⟩ := runm_bind_ok h
  obtain ⟨u2, hr, h, htr2⟩ := runm_bind_ok h
  obtain ⟨u3, hs, h, htr3⟩ := runm_bind_ok h
  obtain ⟨u4, hi1, h, htr4⟩ := runm_bind_ok h
  obtain ⟨u5, hi2, h, htr5⟩ := runm_bind_ok h
  obtain ⟨u6, hi3, h, htr6⟩ := runm_bind_ok h
  obtain ⟨u7, ha, h, htr7⟩ := runm_bind_ok h
  obtain ⟨u8, he, h, htr8⟩ := runm_bind_ok h
  refine ⟨by simpa using hc, by simpa using hr, hs, hi1, hi2, hi3, ha,
    by simpa using he, ?_⟩
  rw [htr, htr2, htr3, htr4, htr5, htr6, htr7, htr8]
  simp

/-- Every event of `embedAndInsert`'s trace is an embeddings call with the
literal content or the INSERT for it. -/
theorem pg_embedAndInsert_events {env : Pgvector.Env} {c : String} {e : Pgvector.Event}
    (he : e ∈ (Pgvector.embedAndInsert env c).trace) :
    e = .embeddingsCreate "text-embedding-ada-002" c ∨
      ∃ v, e = .pgQuery Pgvector.insertSql [.text c, .vec v] := by
  unfold Pgvector.embedAndInsert at he
  rcases mem_bind_trace he with h | ⟨a, _, h⟩
  · rw [pg_getEmbedding_trace] at h
    exact Or.inl (by simpa using h)
  · rcases mem_bind_trace h with h' | ⟨a', _, h'⟩
    · exact Or.inr ⟨a, by simpa using h'⟩
    · simp at h'

/-- A successful `prepareDataSet` of variant B issued exactly a collection
creation, a collection fetch and one add of the three documents — and in
particular no drop or delete of any kind. -/
theorem ch_prepareDataSet_ok {env : Chromadb.Env}
    (h : (Chromadb.prepareDataSet env).res = .ok ()) :
    (Chromadb.prepareDataSet env).trace =
      [.createCollection Chromadb.collectionName,
       .getCollection Chromadb.collectionName,
       .collectionAdd [Chromadb.studentInfo, Chromadb.clubInfo, Chromadb.universityInfo]
         ["id1", "id2", "id3"]] := by
  cases h1 : env.createCollectionR Chromadb.collectionName with
  | error e =>
    simp [Chromadb.prepareDataSet, Chromadb.createCollection, Chromadb.populateCollection,
      Chromadb.getCollection, h1] at h
  | ok u1 =>
    cases h2 : env.getCollectionR Chromadb.collectionName with
    | error e =>
      simp [Chromadb.prepareDataSet, Chromadb.createCollection, Chromadb.populateCollection,
        Chromadb.getCollection, h1, h2] at h
    | ok u2 =>
      cases h3 : env.addR [Chromadb.studentInfo, Chromadb.clubInfo, Chromadb.universityInfo]
          ["id1", "id2", "id3"] with
      | error e =>
        simp [Chromadb.prepareDataSet, Chromadb.createCollection, Chromadb.populateCollection,
          Chromadb.getCollection, h1, h2, h3] at h
      | ok u3 =>
        simp [Chromadb.prepareDataSet, Chromadb.createCollection, Chromadb.populateCollection,
          Chromadb.getCollection, h1, h2, h3]

/-- Every event of `prepareDataSet`'s trace is a collection creation, fetch,
or the add of the three documents. -/
theorem ch_prepareDataSet_events {env : Chromadb.Env} {e : Chromadb.Event}
    (he : e ∈ (Chromadb.prepareDataSet env).trace) :
    e = .createCollection Chromadb.collectionName ∨
    e = .getCollection Chromadb.collectionName ∨
    e = .collectionAdd [Chromadb.studentInfo, Chromadb.clubInfo, Chromadb.universityInfo]
          ["id1", "id2", "id3"] := by
  unfold Chromadb.prepareDataSet Chromadb.populateCollection at he
  rcases mem_bind_trace he with h | ⟨a, _, h⟩
  · exact Or.inl (by simpa [Chromadb.createCollection] using h)
  · rcases mem_bind_trace h with h' | ⟨a', _, h'⟩
    · exact Or.inr (Or.inl (by simpa [Chromadb.getCollection] using h'))
    · rcases mem_bind_trace h' with h'' | ⟨a'', _, h''⟩
      · exact Or.inr (Or.inr (by simpa using h''))
      · simp at h''

/-- Inversion for a chat event of variant B's `askQuestion`: any chat call in
its trace uses gpt-3.5-turbo at temperature 0 and carries exactly the fixed
instruction with the retrieved document plus the verbatim question. -/
theorem ch_chat_inv {env : Chromadb.Env} {m : String} {t : Rat} {msgs : List ChatMessage}
    (he : Chromadb.Event.chatCreate m t msgs ∈ (Chromadb.askQuestion env).trace) :
    m = "gpt-3.5-turbo" ∧ t = 0 ∧
      ∃ docs0 rest info, env.queryR env.stdinAnswer 1 = .ok (docs0 :: rest) ∧
        Chromadb.jsTruthy docs0.headI = some info ∧
        msgs = [⟨"assistant", "Answer the next question using this information: " ++ info⟩,
                ⟨"user", env.stdinAnswer⟩] := by
  cases h1 : env.getCollectionR Chromadb.collectionName with
  | error e =>
    simp [Chromadb.askQuestion, Chromadb.getCollection, h1] at he
  | ok u1 =>
    cases h2 : env.queryR env.stdinAnswer 1 with
    | error e =>
      simp [Chromadb.askQuestion, Chromadb.getCollection, h1, h2] at he
    | ok docs =>
      cases docs with
      | nil => simp [Chromadb.askQuestion, Chromadb.getCollection, h1, h2] at he
      | cons docs0 rest =>
        cases h3 : Chromadb.jsTruthy docs0.headI with
        | none =>
          simp [Chromadb.askQuestion, Chromadb.getCollection, h1, h2, h3] at he
        | some info =>
          cases h4 : env.chatR "gpt-3.5-turbo" 0
              [⟨"assistant", "Answer the next question using this information: " ++ info⟩,
               ⟨"user", env.stdinAnswer⟩] with
          | error e =>
            simp [Chromadb.askQuestion, Chromadb.getCollection, h1, h2, h3, h4] at he
            exact ⟨he.1, he.2.1, docs0, rest, info, rfl, h3, he.2.2⟩
          | ok choices =>
            cases choices with
            | nil =>
              simp [Chromadb.askQuestion, Chromadb.getCollection, h1, h2, h3, h4] at he
              exact ⟨he.1, he.2.1, docs0, rest, info, rfl, h3, he.2.2⟩
            | cons ch chl =>
              simp [Chromadb.askQuestion, Chromadb.getCollection, h1, h2, h3, h4] at he
              exact ⟨he.1, he.2.1, docs0, rest, info, rfl, h3, he.2.2⟩

/-- An element of an interleaving comes from one of the two lists. -/
theorem mem_of_mem_interleavingsAux {n : Nat} {xs ys t : List α} {e : α}
    (ht : t ∈ interleavingsAux n xs ys) (he : e ∈ t) : e ∈ xs ∨ e ∈ ys := by
  induction n generalizing xs ys t with
  | zero =>
    simp [interleavingsAux] at ht
    subst ht
    exact List.mem_append.mp he
  | succ n ih =>
    match xs, ys with
    | [], ys =>
      simp [interleavingsAux] at ht
      subst ht
      exact Or.inr he
    | x :: xs, [] =>
      simp [interleavingsAux] at ht
      subst ht
      exact Or.inl he
    | x :: xs, y :: ys =>
      simp only [interleavingsAux, List.mem_append, List.mem_map] at ht
      rcases ht with ⟨t', ht', rfl⟩ | ⟨t', ht', rfl⟩
      · rcases List.mem_cons.mp he with rfl | he'
        · exact Or.inl (List.mem_cons_self _ _)
        · rcases ih ht' he' with h | h
          · exact Or.inl (List.mem_cons_of_mem _ h)
          · exact Or.inr h
      · rcases List.mem_cons.mp he with rfl | he'
        · exact Or.inr (List.mem_cons_self _ _)
        · rcases ih ht' he' with h | h
          · exact Or.inl h
          · exact Or.inr (List.mem_cons_of_mem _ h)

/-- An event of a possible top-level trace of variant B comes from
`prepareDataSet`'s chain or from `ask`'s chain. -/
theorem ch_mem_mainTraces {env : Chromadb.Env} {t : List Chromadb.Event}
    {e : Chromadb.Event} (ht : t ∈ Chromadb.mainTraces env) (he : e ∈ t) :
    e ∈ (Chromadb.prepareDataSet env).trace ∨ e ∈ (Chromadb.ask env).trace :=
  mem_of_mem_interleavingsAux ht he

/-- C1: for every run of either variant, if the nearest-neighbor retrieval
yields no context document, the program prints the fixed not-found message
("No relevant document found." in variant A, "No relevant information
found." in variant B) and issues no chat-completion request; and conversely
a chat-completion request occurs only when a context document was
retrieved. -/
theorem C1_no_context_short_circuits
    (envA : Pgvector.Env) (e : Emb) (tl : List Emb) (rows : List Pgvector.PgRow)
    (envB : Chromadb.Env) (inner : List (Option String)) (rest : List (List (Option String)))
    (envA2 : Pgvector.Env) (envB2 : Chromadb.Env)
    (hA1 : envA.embeddingsR "text-embedding-ada-002" envA.stdinAnswer = .ok (e :: tl))
    (hA2 : envA.queryR Pgvector.selectSql [.vec e] = .ok rows)
    (hA3 : Pgvector.rowsToContext rows = none)
    (hB1 : envB.getCollectionR Chromadb.collectionName = .ok ())
    (hB2 : envB.queryR envB.stdinAnswer 1 = .ok (inner :: rest))
    (hB3 : Chromadb.jsTruthy inner.headI = none) :
    (Pgvector.askQuestion envA).trace =
      [.rlQuestion Pgvector.promptText envA.stdinAnswer,
       .embeddingsCreate "text-embedding-ada-002" envA.stdinAnswer,
       .pgQuery Pgvector.selectSql [.vec e],
       .consoleLog "No relevant document found."] ∧
    (Chromadb.askQuestion envB).trace =
      [.rlQuestion Chromadb.promptText envB.stdinAnswer,
       .getCollection Chromadb.collectionName,
       .collectionQuery envB.stdinAnswer 1,
       .consoleLog "No relevant information found."] ∧
    (∀ m t msgs, Pgvector.Event.chatCreate m t msgs ∈ (Pgvector.askQuestion envA2).trace →
      ∃ e' rows' ctx, (Pgvector.getEmbedding envA2 envA2.stdinAnswer).res = .ok e' ∧
        envA2.queryR Pgvector.selectSql [.vec e'] = .ok rows' ∧
        Pgvector.rowsToContext rows' = some ctx) ∧
    (∀ m t msgs, Chromadb.Event.chatCreate m t msgs ∈ (Chromadb.askQuestion envB2).trace →
      ∃ docs0 rest' info, envB2.queryR envB2.stdinAnswer 1 = .ok (docs0 :: rest') ∧
        Chromadb.jsTruthy docs0.headI = some info) := by
  refine ⟨?_, ?_, ?_, ?_⟩
  · simp [Pgvector.askQuestion, Pgvector.queryRelevantDocument, Pgvector.getEmbedding,
      hA1, hA2, hA3]
  · simp [Chromadb.askQuestion, Chromadb.getCollection, hB1, hB2, hB3]
  · intro m t msgs hm
    obtain ⟨-, -, e', rows', ctx, h1, h2, h3, -⟩ := pg_chat_inv hm
    exact ⟨e', rows', ctx, h1, h2, h3⟩
  · intro m t msgs hm
    obtain ⟨-, -, docs0, rest', info, h1, h2, -⟩ := ch_chat_inv hm
    exact ⟨docs0, rest', info, h1, h2⟩

/-- C1 witness: concrete environments exercising both the not-found paths and
the retrieved-context paths. -/
theorem C1_no_context_short_circuits_witness :
    (Pgvector.askQuestion envEmptyA).trace =
      [.rlQuestion Pgvector.promptText "What does the chess club do?",
       .embeddingsCreate "text-embedding-ada-002" "What does the chess club do?",
       .pgQuery Pgvector.selectSql [.vec sampleEmb],
       .consoleLog "No relevant document found."] ∧
    (Chromadb.askQuestion envEmptyB).trace =
      [.rlQuestion Chromadb.promptText "Anything?",
       .getCollection Chromadb.collectionName,
       .collectionQuery "Anything?" 1,
       .consoleLog "No relevant information found."] := by
  obtain ⟨h1, h2, -, -⟩ :=
    C1_no_context_short_circuits envEmptyA sampleEmb [] [] envEmptyB [] []
      envFoundA envFoundB rfl rfl rfl rfl rfl rfl
  exact ⟨h1, h2⟩

/-- C2: the claim says both variants are strictly sequential, every external
call awaited before the next.  Variant A is: its run trace is the awaited
steps in source order.  Variant B is not: its top level fires
`prepareDataSet()` and `ask()` without awaiting either, so among the possible
orders of external events there is one in which the question is read from
standard input before the three documents are inserted. -/
theorem C2_sequencing_divergence :
    (Pgvector.runSteps envFoundA).trace =
      [.connect, .registerTypes,
       .pgQuery Pgvector.createExtensionSql [], .pgQuery Pgvector.dropTableSql [],
       .pgQuery Pgvector.createTableSql [],
       .embeddingsCreate "text-embedding-ada-002" Pgvector.studentInfo,
       .pgQuery Pgvector.insertSql [.text Pgvector.studentInfo, .vec sampleEmb],
       .embeddingsCreate "text-embedding-ada-002" Pgvector.clubInfo,
       .pgQuery Pgvector.insertSql [.text Pgvector.clubInfo, .vec sampleEmb],
       .embeddingsCreate "text-embedding-ada-002" Pgvector.universityInfo,
       .pgQuery Pgvector.insertSql [.text Pgvector.universityInfo, .vec sampleEmb],
       .rlQuestion Pgvector.promptText "What does the chess club do?",
       .embeddingsCreate "text-embedding-ada-002" "What does the chess club do?",
       .pgQuery Pgvector.selectSql [.vec sampleEmb],
       .chatCreate "gpt-3.5-turbo" 0
         [⟨"assistant", "Use this information: " ++ Pgvector.clubInfo⟩,
          ⟨"user", "What does the chess club do?"⟩],
       .consoleLog "The chess club meets a few times per week.",
       .pgEnd] ∧
    (Chromadb.mainTraces envFoundB).any questionBeforeInsert = true := by
  exact ⟨rfl, by decide⟩

/-- CREATE EXTENSION leaves the modelled table unchanged. -/
theorem applyPgQuery_ext (t : Option (List (String × Emb))) (ps : List Pgvector.SqlParam) :
    Pgvector.applyPgQuery t Pgvector.createExtensionSql ps = t := by
  unfold Pgvector.applyPgQuery
  rw [if_neg (by decide), if_neg (by decide), if_neg (by decide)]

/-- DROP TABLE removes the modelled table. -/
theorem applyPgQuery_drop (t : Option (List (String × Emb))) (ps : List Pgvector.SqlParam) :
    Pgvector.applyPgQuery t Pgvector.dropTableSql ps = none := by
  unfold Pgvector.applyPgQuery
  rw [if_pos rfl]

/-- CREATE TABLE IF NOT EXISTS creates the modelled table empty only when it
is absent. -/
theorem applyPgQuery_create (t : Option (List (String × Emb))) (ps : List Pgvector.SqlParam) :
    Pgvector.applyPgQuery t Pgvector.createTableSql ps =
      (match t with | none => some [] | some l => some l) := by
  unfold Pgvector.applyPgQuery
  rw [if_neg (by decide), if_pos rfl]

/-- INSERT appends its (content, embedding) parameters as a row. -/
theorem applyPgQuery_insert (t : List (String × Emb)) (c : String) (v : Emb) :
    Pgvector.applyPgQuery (some t) Pgvector.insertSql [.text c, .vec v] =
      some (t ++ [(c, v)]) := by
  unfold Pgvector.applyPgQuery
  rw [if_neg (by decide), if_neg (by decide), if_pos rfl]

/-- The SELECT leaves the modelled table unchanged. -/
theorem applyPgQuery_select (t : Option (List (String × Emb))) (ps : List Pgvector.SqlParam) :
    Pgvector.applyPgQuery t Pgvector.selectSql ps = t := by
  unfold Pgvector.applyPgQuery
  rw [if_neg (by decide), if_neg (by decide), if_neg (by decide)]

/-- C3 counterexample: variant B's initialization never drops storage, so
re-running against a collection that already holds a document leaves that
document in place — storage does not end up containing exactly the three
example documents. -/
theorem C3_reset_counterexample :
    Chromadb.storeAfter (some [("id0", "stale")])
        (Chromadb.prepareDataSet envFoundB).trace =
      some [("id0", "stale"), ("id1", Chromadb.studentInfo), ("id2", Chromadb.clubInfo),
            ("id3", Chromadb.universityInfo)] ∧
    Chromadb.storeAfter (some [("id0", "stale")])
        (Chromadb.prepareDataSet envFoundB).trace ≠
      some [("id1", Chromadb.studentInfo), ("id2", Chromadb.clubInfo),
            ("id3", Chromadb.universityInfo)] := by
  exact ⟨rfl, by decide⟩

/-- C3 amended: in variant A the reset drops and recreates the documents
table, so a completed run leaves exactly the three example documents from
any prior table state; variant B's initialization never drops anything —
only from absent storage does a completed `prepareDataSet` end with exactly
the three example documents. -/
theorem C3_reset_amended (envA : Pgvector.Env) (t0 : Option (List (String × Emb)))
    (envB : Chromadb.Env)
    (hA : (Pgvector.runSteps envA).res = .ok ())
    (hB : (Chromadb.prepareDataSet envB).res = .ok ()) :
    Option.map (List.map Prod.fst) (Pgvector.tableAfter t0 (Pgvector.runSteps envA).trace) =
      some [Pgvector.studentInfo, Pgvector.clubInfo, Pgvector.universityInfo] ∧
    Chromadb.storeAfter none (Chromadb.prepareDataSet envB).trace =
      some [("id1", Chromadb.studentInfo), ("id2", Chromadb.clubInfo),
            ("id3", Chromadb.universityInfo)] := by
  constructor
  · obtain ⟨-, -, hs, hi1, hi2, hi3, ha, -, htr⟩ := pg_runSteps_ok hA
    obtain ⟨e1, -, ht1⟩ := pg_embedAndInsert_ok hi1
    obtain ⟨e2, -, ht2⟩ := pg_embedAndInsert_ok hi2
    obtain ⟨e3, -, ht3⟩ := pg_embedAndInsert_ok hi3
    obtain ⟨e4, rows, -, -, hcase⟩ := pg_askQuestion_ok ha
    rw [htr, pg_setupTable_ok hs, ht1, ht2, ht3]
    rcases hcase with ⟨-, ht4⟩ | ⟨ctx, ch, chl, -, -, ht4⟩ <;>
      rw [ht4] <;>
      simp [Pgvector.tableAfter, Pgvector.applyEvent, applyPgQuery_ext, applyPgQuery_drop,
        applyPgQuery_create, applyPgQuery_insert, applyPgQuery_select]
  · rw [ch_prepareDataSet_ok hB]
    rfl

/-- C3 amended witness: a re-run of variant A from a stale table state and a
first run of variant B from absent storage, both fully successful. -/
theorem C3_reset_amended_witness :
    Option.map (List.map Prod.fst)
        (Pgvector.tableAfter (some [("old document", sampleEmb)])
          (Pgvector.runSteps envFoundA).trace) =
      some [Pgvector.studentInfo, Pgvector.clubInfo, Pgvector.universityInfo] ∧
    Chromadb.storeAfter none (Chromadb.prepareDataSet envFoundB).trace =
      some [("id1", Chromadb.studentInfo), ("id2", Chromadb.clubInfo),
            ("id3", Chromadb.universityInfo)] :=
  C3_reset_amended envFoundA (some [("old document", sampleEmb)]) envFoundB rfl rfl

/-- Inversion for a chat event anywhere in variant A's run: only
`askQuestion` issues chat calls, so the shape of `pg_chat_inv` holds for the
whole run trace. -/
theorem pg_chat_inv_run {env : Pgvector.Env} {m : String} {t : Rat} {msgs : List ChatMessage}
    (he : Pgvector.Event.chatCreate m t msgs ∈ (Pgvector.runSteps env).trace) :
    m = "gpt-3.5-turbo" ∧ t = 0 ∧
      ∃ e rows ctx, (Pgvector.getEmbedding env env.stdinAnswer).res = .ok e ∧
        env.queryR Pgvector.selectSql [.vec e] = .ok rows ∧
        Pgvector.rowsToContext rows = some ctx ∧
        msgs = [⟨"assistant", "Use this information: " ++ ctx⟩,
                ⟨"user", env.stdinAnswer⟩] := by
  unfold Pgvector.runSteps at he
  rcases mem_bind_trace he with h | ⟨_, _, h⟩
  · simp at h
  rcases mem_bind_trace h with h | ⟨_, _, h⟩
  · simp at h
  rcases mem_bind_trace h with h | ⟨_, _, h⟩
  · obtain ⟨sql, ps, hh⟩ := pg_setupTable_events h
    simp at hh
  rcases mem_bind_trace h with h | ⟨_, _, h⟩
  · rcases pg_embedAndInsert_events h with hh | ⟨v, hh⟩ <;> simp at hh
  rcases mem_bind_trace h with h | ⟨_, _, h⟩
  · rcases pg_embedAndInsert_events h with hh | ⟨v, hh⟩ <;> simp at hh
  rcases mem_bind_trace h with h | ⟨_, _, h⟩
  · rcases pg_embedAndInsert_events h with hh | ⟨v, hh⟩ <;> simp at hh
  rcases mem_bind_trace h with h | ⟨_, _, h⟩
  · exact pg_chat_inv h
  rcases mem_bind_trace h with h | ⟨_, _, h⟩
  · simp at h
  · simp at h

/-- C4: every chat-completion request of either variant uses temperature 0
and its message list contains the retrieved context passage inside the fixed
instruction string and the user's question verbatim. -/
theorem C4_chat_request_shape (envA : Pgvector.Env) (envB : Chromadb.Env)
    (tB : List Chromadb.Event) (htB : tB ∈ Chromadb.mainTraces envB) :
    (∀ m t msgs, Pgvector.Event.chatCreate m t msgs ∈ (Pgvector.runSteps envA).trace →
      t = 0 ∧
        (∃ ctx, (⟨"assistant", "Use this information: " ++ ctx⟩ : ChatMessage) ∈ msgs ∧
          ∃ e rows, envA.queryR Pgvector.selectSql [.vec e] = .ok rows ∧
            Pgvector.rowsToContext rows = some ctx) ∧
        (⟨"user", envA.stdinAnswer⟩ : ChatMessage) ∈ msgs) ∧
    (∀ m t msgs, Chromadb.Event.chatCreate m t msgs ∈ tB →
      t = 0 ∧
        (∃ info, (⟨"assistant",
            "Answer the next question using this information: " ++ info⟩ : ChatMessage) ∈ msgs ∧
          ∃ docs0 rest, envB.queryR envB.stdinAnswer 1 = .ok (docs0 :: rest) ∧
            Chromadb.jsTruthy docs0.headI = some info) ∧
        (⟨"user", envB.stdinAnswer⟩ : ChatMessage) ∈ msgs) := by
  constructor
  · intro m t msgs hm
    obtain ⟨-, ht0, e, rows, ctx, -, h2, h3, hmsgs⟩ := pg_chat_inv_run hm
    subst hmsgs
    exact ⟨ht0, ⟨ctx, by simp, e, rows, h2, h3⟩, by simp⟩
  · intro m t msgs hm
    rcases ch_mem_mainTraces htB hm with h | h
    · rcases ch_prepareDataSet_events h with hh | hh | hh <;> simp at hh
    · obtain ⟨-, ht0, docs0, rest, info, h1, h2, hmsgs⟩ := ch_chat_inv h
      subst hmsgs
      exact ⟨ht0, ⟨info, by simp, docs0, rest, h1, h2⟩, by simp⟩

set_option maxRecDepth 8000 in
/-- C4 witness: the chat request actually issued by variant A under the
concrete found-context environment has temperature 0, the instruction with
the retrieved club passage, and the verbatim question. -/
theorem C4_chat_request_shape_witness :
    (0 : Rat) = 0 ∧
      (∃ ctx, (⟨"assistant", "Use this information: " ++ ctx⟩ : ChatMessage) ∈
          ([⟨"assistant", "Use this information: " ++ Pgvector.clubInfo⟩,
            ⟨"user", "What does the chess club do?"⟩] : List ChatMessage) ∧
        ∃ e rows, envFoundA.queryR Pgvector.selectSql [.vec e] = .ok rows ∧
          Pgvector.rowsToContext rows = some ctx) ∧
      (⟨"user", "What does the chess club do?"⟩ : ChatMessage) ∈
        ([⟨"assistant", "Use this information: " ++ Pgvector.clubInfo⟩,
          ⟨"user", "What does the chess club do?"⟩] : List ChatMessage) :=
  (C4_chat_request_shape envFoundA envFoundB
      ((Chromadb.prepareDataSet envFoundB).trace ++ (Chromadb.ask envFoundB).trace)
      (by decide)).1 "gpt-3.5-turbo" 0
    [⟨"assistant", "Use this information: " ++ Pgvector.clubInfo⟩,
     ⟨"user", "What does the chess club do?"⟩] (by decide)

/-- Inversion for a collection.query event of variant B: every query issued
by `askQuestion` carries the verbatim question and `nResults` 1. -/
theorem ch_query_inv {env : Chromadb.Env} {qt : String} {n : Nat}
    (he : Chromadb.Event.collectionQuery qt n ∈ (Chromadb.askQuestion env).trace) :
    qt = env.stdinAnswer ∧ n = 1 := by
  cases h1 : env.getCollectionR Chromadb.collectionName with
  | error e => simp [Chromadb.askQuestion, Chromadb.getCollection, h1] at he
  | ok u1 =>
    cases h2 : env.queryR env.stdinAnswer 1 with
    | error e =>
      simp [Chromadb.askQuestion, Chromadb.getCollection, h1, h2] at he
      exact he
    | ok docs =>
      cases docs with
      | nil =>
        simp [Chromadb.askQuestion, Chromadb.getCollection, h1, h2] at he
        exact he
      | cons docs0 rest =>
        cases h3 : Chromadb.jsTruthy docs0.headI with
        | none =>
          simp [Chromadb.askQuestion, Chromadb.getCollection, h1, h2, h3] at he
          exact he
        | some info =>
          cases h4 : env.chatR "gpt-3.5-turbo" 0
              [⟨"assistant", "Answer the next question using this information: " ++ info⟩,
               ⟨"user", env.stdinAnswer⟩] with
          | error e =>
            simp [Chromadb.askQuestion, Chromadb.getCollection, h1, h2, h3, h4] at he
            exact he
          | ok choices =>
            cases choices with
            | nil =>
              simp [Chromadb.askQuestion, Chromadb.getCollection, h1, h2, h3, h4] at he
              exact he
            | cons ch chl =>
              simp [Chromadb.askQuestion, Chromadb.getCollection, h1, h2, h3, h4] at he
              exact he

/-- C5: the nearest-neighbor lookup of both variants requests at most one
result — variant A's SQL ends in LIMIT 1 and its result is the head row of
the backend's response (so `none` on zero rows), variant B's query always
carries nResults 1 and an empty collection takes the not-found path. -/
theorem C5_single_result_lookup
    (envA : Pgvector.Env) (q : String) (e : Emb) (tl : List Emb)
    (rows : List Pgvector.PgRow)
    (envB : Chromadb.Env) (envB2 : Chromadb.Env)
    (hA1 : envA.embeddingsR "text-embedding-ada-002" q = .ok (e :: tl))
    (hA2 : envA.queryR Pgvector.selectSql [.vec e] = .ok rows)
    (hB1 : envB2.getCollectionR Chromadb.collectionName = .ok ())
    (hB2 : envB2.queryR envB2.stdinAnswer 1 = .ok [[]]) :
    (∃ pre, Pgvector.selectSql = pre ++ "LIMIT 1;") ∧
    (Pgvector.queryRelevantDocument envA q).res = .ok (Pgvector.rowsToContext rows) ∧
    Pgvector.rowsToContext [] = none ∧
    (∀ qt n, Chromadb.Event.collectionQuery qt n ∈ (Chromadb.askQuestion envB).trace →
      n = 1) ∧
    (Chromadb.askQuestion envB2).trace =
      [.rlQuestion Chromadb.promptText envB2.stdinAnswer,
       .getCollection Chromadb.collectionName,
       .collectionQuery envB2.stdinAnswer 1,
       .consoleLog "No relevant information found."] := by
  refine ⟨⟨"SELECT content FROM documents\n     ORDER BY embedding <-> $1\n     ", by rfl⟩,
    ?_, rfl, ?_, ?_⟩
  · simp [Pgvector.queryRelevantDocument, Pgvector.getEmbedding, hA1, hA2]
  · intro qt n hm
    exact (ch_query_inv hm).2
  · simp [Chromadb.askQuestion, Chromadb.getCollection, hB1, hB2, Chromadb.jsTruthy,
      List.headI]

/-- C5 witness: concrete environments — variant A's lookup over an empty
table returns none, variant B's lookup over an empty collection prints the
not-found message. -/
theorem C5_single_result_lookup_witness :
    (Pgvector.queryRelevantDocument envEmptyA "What does the chess club do?").res =
      .ok (Pgvector.rowsToContext []) ∧
    (Chromadb.askQuestion envEmptyB).trace =
      [.rlQuestion Chromadb.promptText "Anything?",
       .getCollection Chromadb.collectionName,
       .collectionQuery "Anything?" 1,
       .consoleLog "No relevant information found."] := by
  obtain ⟨-, h2, -, -, h5⟩ :=
    C5_single_result_lookup envEmptyA "What does the chess club do?" sampleEmb [] []
      envFoundB envEmptyB rfl rfl rfl rfl
  exact ⟨h2, h5⟩

/-- Input text of an embeddings call, when the event is one. -/
def Pgvector.Event.embedInput? : Pgvector.Event → Option String
  | .embeddingsCreate _ i => some i
  | _ => none

/-- The inputs of all embeddings calls of a variant A trace, in order. -/
def pgEmbedInputs (tr : List Pgvector.Event) : List String :=
  tr.filterMap Pgvector.Event.embedInput?

/-- Whatever the oracle answers, `embedAndInsert` embeds exactly its literal
content, once. -/
theorem pg_embedAndInsert_inputs (env : Pgvector.Env) (c : String) :
    pgEmbedInputs (Pgvector.embedAndInsert env c).trace = [c] := by
  cases h1 : env.embeddingsR "text-embedding-ada-002" c with
  | error e =>
    simp [Pgvector.embedAndInsert, Pgvector.getEmbedding, h1, pgEmbedInputs,
      Pgvector.Event.embedInput?]
  | ok l =>
    cases l with
    | nil =>
      simp [Pgvector.embedAndInsert, Pgvector.getEmbedding, h1, pgEmbedInputs,
        Pgvector.Event.embedInput?]
    | cons e0 tl =>
      cases h2 : env.queryR Pgvector.insertSql [.text c, .vec e0] with
      | error er =>
        simp [Pgvector.embedAndInsert, Pgvector.getEmbedding, h1, h2, pgEmbedInputs,
          Pgvector.Event.embedInput?]
      | ok rows =>
        simp [Pgvector.embedAndInsert, Pgvector.getEmbedding, h1, h2, pgEmbedInputs,
          Pgvector.Event.embedInput?]

/-- C6: every embedding call receives its input text verbatim — `getEmbedding`
passes the literal text straight through, `embedAndInsert` embeds exactly its
content, and a completed run embeds exactly the three example documents and
the user's question, unmodified and in order. -/
theorem C6_literal_embedding_input (env1 : Pgvector.Env) (text content : String)
    (env : Pgvector.Env) (h : (Pgvector.runSteps env).res = .ok ()) :
    (Pgvector.getEmbedding env1 text).trace =
      [.embeddingsCreate "text-embedding-ada-002" text] ∧
    pgEmbedInputs (Pgvector.embedAndInsert env1 content).trace = [content] ∧
    pgEmbedInputs (Pgvector.runSteps env).trace =
      [Pgvector.studentInfo, Pgvector.clubInfo, Pgvector.universityInfo,
       env.stdinAnswer] := by
  refine ⟨pg_getEmbedding_trace env1 text, pg_embedAndInsert_inputs env1 content, ?_⟩
  obtain ⟨-, -, hs, hi1, hi2, hi3, ha, -, htr⟩ := pg_runSteps_ok h
  obtain ⟨e1, -, ht1⟩ := pg_embedAndInsert_ok hi1
  obtain ⟨e2, -, ht2⟩ := pg_embedAndInsert_ok hi2
  obtain ⟨e3, -, ht3⟩ := pg_embedAndInsert_ok hi3
  obtain ⟨e4, rows, -, -, hcase⟩ := pg_askQuestion_ok ha
  rw [htr, pg_setupTable_ok hs, ht1, ht2, ht3]
  rcases hcase with ⟨-, ht4⟩ | ⟨ctx, ch, chl, -, -, ht4⟩ <;> rw [ht4] <;>
    simp [pgEmbedInputs, Pgvector.Event.embedInput?]

/-- C6 witness: under the concrete found-context environment the completed
run embeds exactly the three documents and the question, verbatim. -/
theorem C6_literal_embedding_input_witness :
    (Pgvector.getEmbedding envFoundA "some text").trace =
      [.embeddingsCreate "text-embedding-ada-002" "some text"] ∧
    pgEmbedInputs (Pgvector.embedAndInsert envFoundA "some content").trace =
      ["some content"] ∧
    pgEmbedInputs (Pgvector.runSteps envFoundA).trace =
      [Pgvector.studentInfo, Pgvector.clubInfo, Pgvector.universityInfo,
       "What does the chess club do?"] :=
  C6_literal_embedding_input envFoundA "some text" "some content" envFoundA rfl

/-- C7: no failure besides the no-document case is handled anywhere — an
error from a storage, embedding, or completion call makes the whole chain
reject with exactly that error, the trace stops at the failing call (no
retry), and nothing afterwards (no insertion, no chat call, no print, no
disconnect) runs. -/
theorem C7_error_propagation
    (envA : Pgvector.Env) (e1 : Err)
    (envA2 : Pgvector.Env) (e2 : Err) (r1 r2 r3 : List Pgvector.PgRow)
    (envB : Chromadb.Env) (e3 : Err) (docs0 : List (Option String))
    (rest : List (List (Option String))) (info : String)
    (envB2 : Chromadb.Env) (e4 : Err)
    (hA1 : envA.connectR = .ok ()) (hA2 : envA.registerTypesR = .ok ())
    (hA3 : envA.queryR Pgvector.createExtensionSql [] = .error e1)
    (hA21 : envA2.connectR = .ok ()) (hA22 : envA2.registerTypesR = .ok ())
    (hA23 : envA2.queryR Pgvector.createExtensionSql [] = .ok r1)
    (hA24 : envA2.queryR Pgvector.dropTableSql [] = .ok r2)
    (hA25 : envA2.queryR Pgvector.createTableSql [] = .ok r3)
    (hA26 : envA2.embeddingsR "text-embedding-ada-002" Pgvector.studentInfo = .error e2)
    (hB1 : envB.getCollectionR Chromadb.collectionName = .ok ())
    (hB2 : envB.queryR envB.stdinAnswer 1 = .ok (docs0 :: rest))
    (hB3 : Chromadb.jsTruthy docs0.headI = some info)
    (hB4 : envB.chatR "gpt-3.5-turbo" 0
        [⟨"assistant", "Answer the next question using this information: " ++ info⟩,
         ⟨"user", envB.stdinAnswer⟩] = .error e3)
    (hB21 : envB2.getCollectionR Chromadb.collectionName = .ok ())
    (hB22 : envB2.queryR envB2.stdinAnswer 1 = .error e4) :
    Pgvector.runSteps envA =
      ⟨.error e1, [.connect, .registerTypes, .pgQuery Pgvector.createExtensionSql []]⟩ ∧
    Pgvector.runSteps envA2 =
      ⟨.error e2,
       [.connect, .registerTypes, .pgQuery Pgvector.createExtensionSql [],
        .pgQuery Pgvector.dropTableSql [], .pgQuery Pgvector.createTableSql [],
        .embeddingsCreate "text-embedding-ada-002" Pgvector.studentInfo]⟩ ∧
    Chromadb.askQuestion envB =
      ⟨.error e3,
       [.rlQuestion Chromadb.promptText envB.stdinAnswer,
        .getCollection Chromadb.collectionName,
        .collectionQuery envB.stdinAnswer 1,
        .chatCreate "gpt-3.5-turbo" 0
          [⟨"assistant", "Answer the next question using this information: " ++ info⟩,
           ⟨"user", envB.stdinAnswer⟩]]⟩ ∧
    Chromadb.askQuestion envB2 =
      ⟨.error e4,
       [.rlQuestion Chromadb.promptText envB2.stdinAnswer,
        .getCollection Chromadb.collectionName,
        .collectionQuery envB2.stdinAnswer 1]⟩ := by
  refine ⟨?_, ?_, ?_, ?_⟩
  · simp [Pgvector.runSteps, Pgvector.setupTable, hA1, hA2, hA3]
  · simp [Pgvector.runSteps, Pgvector.setupTable, Pgvector.embedAndInsert,
      Pgvector.getEmbedding, hA21, hA22, hA23, hA24, hA25, hA26]
  · simp [Chromadb.askQuestion, Chromadb.getCollection, hB1, hB2, hB3, hB4]
  · simp [Chromadb.askQuestion, Chromadb.getCollection, hB21, hB22]

/-- Variant A environment whose storage queries all reject. -/
def envErrQueryA : Pgvector.Env :=
  ⟨.ok (), .ok (),
   fun _ _ => .error (.external "pg.query" "connection refused"),
   fun _ _ => .ok [sampleEmb],
   fun _ _ _ => .ok [⟨some "unused"⟩],
   "What does the chess club do?",
   .ok ()⟩

/-- Variant A environment whose embedding calls all reject. -/
def envErrEmbedA : Pgvector.Env :=
  ⟨.ok (), .ok (),
   fun _ _ => .ok [],
   fun _ _ => .error (.external "openai.embeddings.create" "rate limit"),
   fun _ _ _ => .ok [⟨some "unused"⟩],
   "What does the chess club do?",
   .ok ()⟩

/-- Variant B environment whose chat call rejects. -/
def envErrChatB : Chromadb.Env :=
  ⟨fun _ => .ok (), fun _ => .ok (), fun _ _ => .ok (),
   fun _ _ => .ok [[some Chromadb.clubInfo]],
   fun _ _ _ => .error (.external "openai.chat.completions.create" "missing API key"),
   "What does the chess club do?"⟩

/-- Variant B environment whose query call rejects. -/
def envErrQueryB : Chromadb.Env :=
  ⟨fun _ => .ok (), fun _ => .ok (), fun _ _ => .ok (),
   fun _ _ => .error (.external "collection.query" "network error"),
   fun _ _ _ => .ok [⟨some "unused"⟩],
   "What does the chess club do?"⟩

/-- C7 witness: a failing first storage statement kills variant A's run at
that call, and a failing query kills variant B's pipeline at that call. -/
theorem C7_error_propagation_witness :
    Pgvector.runSteps envErrQueryA =
      ⟨.error (.external "pg.query" "connection refused"),
       [.connect, .registerTypes, .pgQuery Pgvector.createExtensionSql []]⟩ ∧
    Chromadb.askQuestion envErrQueryB =
      ⟨.error (.external "collection.query" "network error"),
       [.rlQuestion Chromadb.promptText "What does the chess club do?",
        .getCollection Chromadb.collectionName,
        .collectionQuery "What does the chess club do?" 1]⟩ := by
  have h := C7_error_propagation envErrQueryA (.external "pg.query" "connection refused")
    envErrEmbedA (.external "openai.embeddings.create" "rate limit") [] [] []
    envErrChatB (.external "openai.chat.completions.create" "missing API key")
    [some Chromadb.clubInfo] [] Chromadb.clubInfo
    envErrQueryB (.external "collection.query" "network error")
    rfl rfl rfl rfl rfl rfl rfl rfl rfl rfl rfl (by rfl) rfl rfl rfl
  exact ⟨h.1, h.2.2.2⟩

/-- Every event of `queryRelevantDocument`'s trace is an embeddings call or a
pg.query. -/
theorem pg_qrd_events {env : Pgvector.Env} {q : String} {e : Pgvector.Event}
    (he : e ∈ (Pgvector.queryRelevantDocument env q).trace) :
    (∃ m i, e = .embeddingsCreate m i) ∨ ∃ sql ps, e = .pgQuery sql ps := by
  unfold Pgvector.queryRelevantDocument at he
  rcases mem_bind_trace he with h | ⟨a, _, h⟩
  · rw [pg_getEmbedding_trace] at h
    exact Or.inl ⟨_, _, by simpa using h⟩
  · rcases mem_bind_trace h with h' | ⟨a', _, h'⟩
    · exact Or.inr ⟨_, _, by simpa using h'⟩
    · simp at h'

/-- No event of `askQuestion`'s trace is the connect or the disconnect. -/
theorem pg_askQuestion_events {env : Pgvector.Env} {e : Pgvector.Event}
    (he : e ∈ (Pgvector.askQuestion env).trace) :
    e ≠ .connect ∧ e ≠ .pgEnd := by
  unfold Pgvector.askQuestion at he
  rcases mem_bind_trace he with h | ⟨a, _, h⟩
  · simp at h
    subst h
    exact ⟨by simp, by simp⟩
  rcases mem_bind_trace h with h | ⟨ctx, _, h⟩
  · rcases pg_qrd_events h with ⟨m, i, rfl⟩ | ⟨sql, ps, rfl⟩ <;> exact ⟨by simp, by simp⟩
  · cases ctx with
    | none =>
      simp at h
      subst h
      exact ⟨by simp, by simp⟩
    | some c =>
      rcases mem_bind_trace h with h' | ⟨choices, _, h'⟩
      · simp at h'
        subst h'
        exact ⟨by simp, by simp⟩
      · cases choices with
        | nil => simp at h'
        | cons ch chl =>
          simp at h'
          subst h'
          exact ⟨by simp, by simp⟩

/-- C8: a completed run of variant A connects exactly once, as the very first
external call, and disconnects exactly once, as the very last one — so no
storage query (indeed no call at all) happens after the close. -/
theorem C8_connection_lifecycle (env : Pgvector.Env)
    (h : (Pgvector.runSteps env).res = .ok ()) :
    ∃ mid, (Pgvector.runSteps env).trace = .connect :: (mid ++ [.pgEnd]) ∧
      Pgvector.Event.connect ∉ mid ∧ Pgvector.Event.pgEnd ∉ mid := by
  obtain ⟨-, -, hs, hi1, hi2, hi3, ha, -, htr⟩ := pg_runSteps_ok h
  refine ⟨.registerTypes :: ((Pgvector.setupTable env).trace ++
      (Pgvector.embedAndInsert env Pgvector.studentInfo).trace ++
      (Pgvector.embedAndInsert env Pgvector.clubInfo).trace ++
      (Pgvector.embedAndInsert env Pgvector.universityInfo).trace ++
      (Pgvector.askQuestion env).trace), ?_, ?_, ?_⟩
  · rw [htr]
    simp
  · intro hm
    rcases List.mem_cons.mp hm with hc | hc
    · simp at hc
    · simp only [List.mem_append] at hc
      rcases hc with (((hc | hc) | hc) | hc) | hc
      · obtain ⟨sql, ps, hh⟩ := pg_setupTable_events hc
        simp at hh
      · rcases pg_embedAndInsert_events hc with hh | ⟨v, hh⟩ <;> simp at hh
      · rcases pg_embedAndInsert_events hc with hh | ⟨v, hh⟩ <;> simp at hh
      · rcases pg_embedAndInsert_events hc with hh | ⟨v, hh⟩ <;> simp at hh
      · exact (pg_askQuestion_events hc).1 rfl
  · intro hm
    rcases List.mem_cons.mp hm with hc | hc
    · simp at hc
    · simp only [List.mem_append] at hc
      rcases hc with (((hc | hc) | hc) | hc) | hc
      · obtain ⟨sql, ps, hh⟩ := pg_setupTable_events hc
        simp at hh
      · rcases pg_embedAndInsert_events hc with hh | ⟨v, hh⟩ <;> simp at hh
      · rcases pg_embedAndInsert_events hc with hh | ⟨v, hh⟩ <;> simp at hh
      · rcases pg_embedAndInsert_events hc with hh | ⟨v, hh⟩ <;> simp at hh
      · exact (pg_askQuestion_events hc).2 rfl

/-- C8 witness: the concrete completed run connects first and disconnects
last, with neither event occurring in between. -/
theorem C8_connection_lifecycle_witness :
    ∃ mid, (Pgvector.runSteps envFoundA).trace = .connect :: (mid ++ [.pgEnd]) ∧
      Pgvector.Event.connect ∉ mid ∧ Pgvector.Event.pgEnd ∉ mid :=
  C8_connection_lifecycle envFoundA rfl

/-- Variant A environment whose SELECT returns one row holding the empty
string as content. -/
def envFalsyA : Pgvector.Env :=
  ⟨.ok (), .ok (),
   fun _ _ => .ok [⟨some ""⟩],
   fun _ _ => .ok [sampleEmb],
   fun _ _ _ => .ok [⟨some "unused"⟩],
   "What does the chess club do?",
   .ok ()⟩

/-- C9: in variant A a falsy stored content — the empty string or SQL NULL —
coerces to null exactly like an empty row set does, so `queryRelevantDocument`
returns none, the pipeline prints the not-found message and never calls the
completion model: an empty-content document is indistinguishable from empty
storage at the public interface. -/
theorem C9_falsy_content (env : Pgvector.Env) (e : Emb) (tl : List Emb)
    (h1 : env.embeddingsR "text-embedding-ada-002" env.stdinAnswer = .ok (e :: tl))
    (h2 : env.queryR Pgvector.selectSql [.vec e] = .ok [⟨some ""⟩]) :
    Pgvector.rowsToContext [⟨some ""⟩] = none ∧
    Pgvector.rowsToContext [⟨none⟩] = none ∧
    Pgvector.rowsToContext [] = none ∧
    (Pgvector.queryRelevantDocument env env.stdinAnswer).res = .ok none ∧
    (Pgvector.askQuestion env).trace =
      [.rlQuestion Pgvector.promptText env.stdinAnswer,
       .embeddingsCreate "text-embedding-ada-002" env.stdinAnswer,
       .pgQuery Pgvector.selectSql [.vec e],
       .consoleLog "No relevant document found."] := by
  have hr : Pgvector.rowsToContext [⟨some ""⟩] = none := rfl
  refine ⟨hr, rfl, rfl, ?_, ?_⟩
  · simp [Pgvector.queryRelevantDocument, Pgvector.getEmbedding, h1, h2, hr]
  · simp [Pgvector.askQuestion, Pgvector.queryRelevantDocument, Pgvector.getEmbedding,
      h1, h2, hr]

/-- C9 witness: the concrete empty-content row makes the pipeline behave
exactly as over empty storage. -/
theorem C9_falsy_content_witness :
    (Pgvector.queryRelevantDocument envFalsyA "What does the chess club do?").res =
      .ok none ∧
    (Pgvector.askQuestion envFalsyA).trace =
      [.rlQuestion Pgvector.promptText "What does the chess club do?",
       .embeddingsCreate "text-embedding-ada-002" "What does the chess club do?",
       .pgQuery Pgvector.selectSql [.vec sampleEmb],
       .consoleLog "No relevant document found."] := by
  obtain ⟨-, -, -, h4, h5⟩ := C9_falsy_content envFalsyA sampleEmb [] rfl rfl
  exact ⟨h4, h5⟩

/-- Variant A environment whose embeddings responses carry an empty data
array. -/
def envNoDataA : Pgvector.Env :=
  ⟨.ok (), .ok (),
   fun _ _ => .ok [],
   fun _ _ => .ok [],
   fun _ _ _ => .ok [⟨some "unused"⟩],
   "What does the chess club do?",
   .ok ()⟩

/-- Variant A environment whose chat responses carry an empty choices
array. -/
def envNoChoicesA : Pgvector.Env :=
  ⟨.ok (), .ok (),
   fun _ _ => .ok [⟨some Pgvector.clubInfo⟩],
   fun _ _ => .ok [sampleEmb],
   fun _ _ _ => .ok [],
   "What does the chess club do?",
   .ok ()⟩

/-- Variant B environment whose query responses carry an empty outer
documents array. -/
def envOuterEmptyB : Chromadb.Env :=
  ⟨fun _ => .ok (), fun _ => .ok (), fun _ _ => .ok (),
   fun _ _ => .ok [],
   fun _ _ _ => .ok [⟨some "unused"⟩],
   "What does the chess club do?"⟩

/-- C10: the first-element accesses into external responses are unguarded —
an empty embeddings data array, an empty choices array, or an empty outer
documents array each abort the pipeline with precisely the corresponding
undefined access — and conversely, when every external call succeeds and
every response carries at least one element, the pipelines complete with no
indexing failure. -/
theorem C10_unguarded_first_element
    (envA : Pgvector.Env) (text : String)
    (envA2 : Pgvector.Env) (e : Emb) (tl : List Emb) (rows : List Pgvector.PgRow)
    (ctx : String)
    (envB : Chromadb.Env)
    (envA3 : Pgvector.Env) (envB3 : Chromadb.Env)
    (hA : envA.embeddingsR "text-embedding-ada-002" text = .ok [])
    (hA21 : envA2.embeddingsR "text-embedding-ada-002" envA2.stdinAnswer = .ok (e :: tl))
    (hA22 : envA2.queryR Pgvector.selectSql [.vec e] = .ok rows)
    (hA23 : Pgvector.rowsToContext rows = some ctx)
    (hA24 : envA2.chatR "gpt-3.5-turbo" 0
        [⟨"assistant", "Use this information: " ++ ctx⟩,
         ⟨"user", envA2.stdinAnswer⟩] = .ok [])
    (hB1 : envB.getCollectionR Chromadb.collectionName = .ok ())
    (hB2 : envB.queryR envB.stdinAnswer 1 = .ok [])
    (hA31 : envA3.connectR = .ok ()) (hA32 : envA3.registerTypesR = .ok ())
    (hA33 : ∀ sql ps, ∃ rs, envA3.queryR sql ps = .ok rs)
    (hA34 : ∀ m i, ∃ v vs, envA3.embeddingsR m i = .ok (v :: vs))
    (hA35 : ∀ m t msgs, ∃ c cs, envA3.chatR m t msgs = .ok (c :: cs))
    (hA36 : envA3.endR = .ok ())
    (hB31 : envB3.getCollectionR Chromadb.collectionName = .ok ())
    (hB32 : ∀ q n, ∃ d ds, envB3.queryR q n = .ok (d :: ds))
    (hB33 : ∀ m t msgs, ∃ c cs, envB3.chatR m t msgs = .ok (c :: cs)) :
    (Pgvector.getEmbedding envA text).res =
      .error (.undefinedAccess "res.data[0].embedding") ∧
    (Pgvector.askQuestion envA2).res =
      .error (.undefinedAccess "res.choices[0].message") ∧
    (Chromadb.askQuestion envB).res =
      .error (.undefinedAccess "result.documents[0][0]") ∧
    (Pgvector.runSteps envA3).res = .ok () ∧
    (Chromadb.askQuestion envB3).res = .ok () := by
  refine ⟨?_, ?_, ?_, ?_, ?_⟩
  · simp [Pgvector.getEmbedding, hA]
  · simp [Pgvector.askQuestion, Pgvector.queryRelevantDocument, Pgvector.getEmbedding,
      hA21, hA22, hA23, hA24]
  · simp [Chromadb.askQuestion, Chromadb.getCollection, hB1, hB2]
  · obtain ⟨r1, hq1⟩ := hA33 Pgvector.createExtensionSql []
    obtain ⟨r2, hq2⟩ := hA33 Pgvector.dropTableSql []
    obtain ⟨r3, hq3⟩ := hA33 Pgvector.createTableSql []
    obtain ⟨v1, vs1, he1⟩ := hA34 "text-embedding-ada-002" Pgvector.studentInfo
    obtain ⟨ri1, hqi1⟩ := hA33 Pgvector.insertSql [.text Pgvector.studentInfo, .vec v1]
    obtain ⟨v2, vs2, he2⟩ := hA34 "text-embedding-ada-002" Pgvector.clubInfo
    obtain ⟨ri2, hqi2⟩ := hA33 Pgvector.insertSql [.text Pgvector.clubInfo, .vec v2]
    obtain ⟨v3, vs3, he3⟩ := hA34 "text-embedding-ada-002" Pgvector.universityInfo
    obtain ⟨ri3, hqi3⟩ := hA33 Pgvector.insertSql [.text Pgvector.universityInfo, .vec v3]
    obtain ⟨v4, vs4, he4⟩ := hA34 "text-embedding-ada-002" envA3.stdinAnswer
    obtain ⟨rs, hsel⟩ := hA33 Pgvector.selectSql [.vec v4]
    cases hctx : Pgvector.rowsToContext rs with
    | none =>
      simp [Pgvector.runSteps, Pgvector.setupTable, Pgvector.embedAndInsert,
        Pgvector.getEmbedding, Pgvector.askQuestion, Pgvector.queryRelevantDocument,
        hA31, hA32, hA36, hq1, hq2, hq3, he1, hqi1, he2, hqi2, he3, hqi3, he4, hsel, hctx]
    | some ctx3 =>
      obtain ⟨c1, cs1, hch⟩ := hA35 "gpt-3.5-turbo" 0
        [⟨"assistant", "Use this information: " ++ ctx3⟩, ⟨"user", envA3.stdinAnswer⟩]
      simp [Pgvector.runSteps, Pgvector.setupTable, Pgvector.embedAndInsert,
        Pgvector.getEmbedding, Pgvector.askQuestion, Pgvector.queryRelevantDocument,
        hA31, hA32, hA36, hq1, hq2, hq3, he1, hqi1, he2, hqi2, he3, hqi3, he4, hsel, hctx,
        hch]
  · obtain ⟨d, ds, hqB⟩ := hB32 envB3.stdinAnswer 1
    cases hj : Chromadb.jsTruthy d.headI with
    | none => simp [Chromadb.askQuestion, Chromadb.getCollection, hB31, hqB, hj]
    | some info =>
      obtain ⟨c1, cs1, hch⟩ := hB33 "gpt-3.5-turbo" 0
        [⟨"assistant", "Answer the next question using this information: " ++ info⟩,
         ⟨"user", envB3.stdinAnswer⟩]
      simp [Chromadb.askQuestion, Chromadb.getCollection, hB31, hqB, hj, hch]

/-- C10 witness: empty responses crash at the corresponding access, and the
all-nonempty concrete environments complete. -/
theorem C10_unguarded_first_element_witness :
    (Pgvector.getEmbedding envNoDataA "anything").res =
      .error (.undefinedAccess "res.data[0].embedding") ∧
    (Pgvector.askQuestion envNoChoicesA).res =
      .error (.undefinedAccess "res.choices[0].message") ∧
    (Chromadb.askQuestion envOuterEmptyB).res =
      .error (.undefinedAccess "result.documents[0][0]") ∧
    (Pgvector.runSteps envFoundA).res = .ok () ∧
    (Chromadb.askQuestion envFoundB).res = .ok () :=
  C10_unguarded_first_element envNoDataA "anything"
    envNoChoicesA sampleEmb [] [⟨some Pgvector.clubInfo⟩] Pgvector.clubInfo
    envOuterEmptyB envFoundA envFoundB
    rfl rfl rfl rfl rfl rfl rfl rfl rfl
    (fun _ _ => ⟨[⟨some Pgvector.clubInfo⟩], rfl⟩)
    (fun _ _ => ⟨sampleEmb, [], rfl⟩)
    (fun _ _ _ => ⟨⟨some "The chess club meets a few times per week."⟩, [], rfl⟩)
    rfl rfl
    (fun _ _ => ⟨[some Chromadb.clubInfo], [], rfl⟩)
    (fun _ _ _ => ⟨⟨some "It meets a few times per week."⟩, [], rfl⟩)
